import Mathlib

/-!
Verification of the minngk.github.io portfolio scripts.

This file gives a shallow embedding of the three browser modules that the
specification describes, and proves the spec claims about them:

* `js/github-api.js` (class GitHubAPI): profile-statistics fetching with a
  five-minute cache.  The asynchronous `fetch` call is modelled by a
  `FetchOutcome` parameter (success carries the decoded JSON body, failure
  covers both transport errors and non-2xx statuses, which the code turns
  into a thrown exception caught by the same handler).  The wall clock
  `Date.now()` is an explicit `now : Int` argument (milliseconds).
* `projects.js` (class ProjectsManager): catalog loading, filtering,
  searching, sorting and insertion.  Calendar dates (`createdAt`) are
  modelled by their epoch-millisecond values, i.e. `new Date(s).getTime()`
  of the stored string; `new Date(b) - new Date(a)` becomes integer
  subtraction of those values.  `Array.prototype.sort`, which is stable per
  ES2019, is modelled by the stable `List.mergeSort`.
* `theme.js` (class ThemeManager): the theme registry is an insertion-ordered
  association list (mirroring JS object key order), the CSS custom
  properties on `document.documentElement` are an association list updated
  by `setProperty` (an upsert), and `localStorage` is an `Option String`.

JavaScript truthiness on strings (`!s` is true for `undefined`, `null` and
`""`) is modelled by `strFalsy` on `Option String`; `x || d` on strings by
`jsOr`.  Functions that the source lets throw are `Except`/`Option` valued.
-/

namespace Portfolio

/-! ### GitHubAPI (src/js/github-api.js) -/

/-- Value of one of the three numeric stat fields of the snapshot: either a
genuine count or the string marker produced on fetch failure
(the literal "?" in the source). -/
inductive Counter where
  | num (n : Nat)
  | unknown
deriving DecidableEq, Repr

/-- The normalized user-statistics object that fetchUserData caches and
returns (fields of the object literal built at github-api.js lines 50-60
and 68-78). -/
structure ProfileSnapshot where
  public_repos : Counter
  followers : Counter
  following : Counter
  avatar_url : String
  bio : String
  location : String
  company : String
  blog : String
  created_at : String
deriving DecidableEq, Repr

/-- The raw JSON body of a successful GET /users/:username response;
every field may be absent (or null), which the code coerces away. -/
structure UserResponse where
  public_repos : Option Nat := none
  followers : Option Nat := none
  following : Option Nat := none
  avatar_url : Option String := none
  bio : Option String := none
  location : Option String := none
  company : Option String := none
  blog : Option String := none
  created_at : Option String := none
deriving Repr

/-- The this.cache object of GitHubAPI: data, timestamp, ttl. -/
structure Cache where
  data : Option ProfileSnapshot
  timestamp : Option Int
  ttl : Int
deriving DecidableEq, Repr

/-- Cache as built by the GitHubAPI constructor: empty, ttl = 5 minutes in
milliseconds. -/
def initialCache : Cache :=
  { data := none, timestamp := none, ttl := 5 * 60 * 1000 }

/-- GitHubAPI.isCacheValid.  The source first rejects a falsy data or
timestamp (a timestamp of 0 is falsy in JavaScript, hence the extra test),
then compares Date.now() - timestamp < ttl. -/
def isCacheValid (c : Cache) (now : Int) : Bool :=
  match c.data, c.timestamp with
  | some _, some ts => if ts = 0 then false else decide (now - ts < c.ttl)
  | _, _ => false

/-- Outcome of the awaited fetch of the profile resource: success carries
the decoded JSON; failure covers transport errors and non-ok statuses
(the code throws on !response.ok into the same catch). -/
inductive FetchOutcome where
  | success (resp : UserResponse)
  | failure
deriving Repr

/-- Result of one fetchUserData call: the returned snapshot, the cache
state after the call, how many network requests were issued (0 or 1), and
whether the catch branch logged its console.warn diagnostic. -/
structure FetchResult where
  snapshot : ProfileSnapshot
  cache : Cache
  networkCalls : Nat
  diagnostic : Bool
deriving DecidableEq, Repr

/-- Normalization applied to a successful response body
(github-api.js lines 50-60): numeric fields default to 0, text fields to
the empty string. -/
def normalizeUser (r : UserResponse) : ProfileSnapshot where
  public_repos := Counter.num (r.public_repos.getD 0)
  followers := Counter.num (r.followers.getD 0)
  following := Counter.num (r.following.getD 0)
  avatar_url := r.avatar_url.getD ""
  bio := r.bio.getD ""
  location := r.location.getD ""
  company := r.company.getD ""
  blog := r.blog.getD ""
  created_at := r.created_at.getD ""

/-- The fallback object returned from the catch branch
(github-api.js lines 68-78): counters are the "?" marker, text fields
empty. -/
def sentinelSnapshot : ProfileSnapshot where
  public_repos := Counter.unknown
  followers := Counter.unknown
  following := Counter.unknown
  avatar_url := ""
  bio := ""
  location := ""
  company := ""
  blog := ""
  created_at := ""

/-- GitHubAPI.fetchUserData.  Returns the cached snapshot with no network
access while the cache is valid; otherwise performs one request, caching
the normalized body on success, and returning the sentinel (with the
cache untouched) on failure. -/
def fetchUserData (c : Cache) (now : Int) (outcome : FetchOutcome) : FetchResult :=
  if isCacheValid c now then
    { snapshot := c.data.getD sentinelSnapshot, cache := c, networkCalls := 0, diagnostic := false }
  else
    match outcome with
    | FetchOutcome.success r =>
      let snap := normalizeUser r
      { snapshot := snap
        cache := { c with data := some snap, timestamp := some now }
        networkCalls := 1
        diagnostic := false }
    | FetchOutcome.failure =>
      { snapshot := sentinelSnapshot, cache := c, networkCalls := 1, diagnostic := true }

/-! ### ProjectsManager (src/unnamed/part_000, the repository file js/projects.js) -/

/-- JavaScript falsiness of an optional string value: undefined, null and
the empty string are falsy. -/
def strFalsy : Option String → Bool
  | none => true
  | some s => s = ""

/-- JavaScript disjunction default (x or-else d) on an optional string:
yields d when x is absent or empty. -/
def jsOr (o : Option String) (d : String) : String :=
  match o with
  | none => d
  | some s => if s = "" then d else s

/-- Character-level substring test: models String.prototype.includes. -/
def listIncludes (s sub : List Char) : Bool :=
  (List.range (s.length + 1)).any (fun i => sub.isPrefixOf (s.drop i))

/-- Substring test on strings, the model of s.includes(sub). -/
def strIncludes (s sub : String) : Bool :=
  listIncludes s.data sub.data

/-- One project record, as stored in this.projects.  The createdAt date is
modelled by its epoch-millisecond value (see the file header). -/
structure Project where
  id : String
  name : String
  description : String
  icon : String
  technologies : List String
  github : String
  demo : Option String
  featured : Bool
  createdAt : Int
  status : String
  color : String
  language : String
deriving DecidableEq, Repr

/-- The settings object of projects.json ({} when absent; a missing
showFeaturedFirst key is falsy). -/
structure Settings where
  showFeaturedFirst : Bool := false
deriving DecidableEq, Repr

/-- The mutable state of a ProjectsManager instance. -/
structure ProjectsState where
  projects : List Project
  filteredProjects : List Project
  settings : Settings
  isLoaded : Bool
deriving DecidableEq, Repr

/-- State built by the ProjectsManager constructor. -/
def initialProjectsState : ProjectsState :=
  { projects := [], filteredProjects := [], settings := {}, isLoaded := false }

/-- The iconMap object of ProjectsManager.getLanguageIcon. -/
def iconMap : List (String × String) :=
  [("Go", "fab fa-golang"), ("JavaScript", "fab fa-js-square"),
   ("TypeScript", "fab fa-js-square"), ("Python", "fab fa-python"),
   ("React", "fab fa-react"), ("Vue", "fab fa-vuejs"),
   ("Node.js", "fab fa-node-js"), ("HTML", "fab fa-html5"),
   ("CSS", "fab fa-css3-alt"), ("PHP", "fab fa-php"),
   ("Java", "fab fa-java"), ("C++", "fas fa-code"),
   ("C#", "fas fa-code"), ("Ruby", "fas fa-gem"),
   ("Rust", "fas fa-cog"), ("Swift", "fab fa-swift"),
   ("Kotlin", "fas fa-mobile-alt")]

/-- ProjectsManager.getLanguageIcon; an absent language or one outside the
map falls through to the default icon. -/
def getLanguageIcon (language : Option String) : String :=
  (language.bind (fun l => List.lookup l iconMap)).getD "fas fa-code"

/-- Replacement of one character in the id slug: the regex [^a-z0-9] sends
every character outside lowercase ASCII letters and digits to a dash. -/
def slugChar (c : Char) : Char :=
  if ( 'a' <= c && c <= 'z') || ( '0' <= c && c <= '9') then c else '-'

/-- Collapse of dash runs, the replace of the regex -+ by a single dash. -/
def collapseDashes : List Char -> List Char
  | [] => []
  | [c] => [c]
  | c1 :: c2 :: rest =>
    if c1 = '-' && c2 = '-' then collapseDashes (c2 :: rest)
    else c1 :: collapseDashes (c2 :: rest)

/-- Removal of a single leading dash (the regex alternative starting at the
beginning of the string). -/
def dropLeadDash : List Char -> List Char
  | '-' :: rest => rest
  | l => l

/-- Removal of a single trailing dash (the other regex alternative). -/
def dropTrailDash (l : List Char) : List Char :=
  (dropLeadDash l.reverse).reverse

/-- The baseId computation of ProjectsManager.generateId: lowercase, map
non-alphanumerics to dashes, collapse dash runs, strip one leading and one
trailing dash. -/
def slugify (name : String) : String :=
  (dropTrailDash (dropLeadDash (collapseDashes
    (name.data.map (fun c => slugChar c.toLower))))).asString

/-- The while loop of ProjectsManager.generateId.  The JS loop keeps trying
baseId, baseId-1, baseId-2, ... until a candidate collides with no existing
id; since successive candidates are pairwise distinct strings, at most
ids.length + 1 trials can collide, so that much fuel makes the embedding
exact. -/
def genLoop (ids : List String) (baseId : String) : String -> Nat -> Nat -> String
  | id, _, 0 => id
  | id, counter, fuel+1 =>
    if id ∈ ids then genLoop ids baseId (baseId ++ "-" ++ Nat.repr counter) (counter + 1) fuel
    else id

/-- ProjectsManager.generateId. -/
def generateId (projects : List Project) (name : String) : String :=
  let baseId := slugify name
  genLoop (projects.map Project.id) baseId baseId 1 (projects.length + 1)

/-- Caller-supplied argument of ProjectsManager.addProject; every field of
the input object may be absent. -/
structure ProjectInput where
  id : Option String := none
  name : Option String := none
  description : Option String := none
  icon : Option String := none
  technologies : Option (List String) := none
  github : Option String := none
  demo : Option String := none
  featured : Option Bool := none
  color : Option String := none
  language : Option String := none
deriving Repr

/-- ProjectsManager.addProject.  Throws (modelled by Except.error, with the
state returned unchanged because the throw precedes every mutation) when
name or github is missing or empty; otherwise fills defaults, generates an
id only when none was supplied, prepends the new project via unshift and
resets filteredProjects.  The re-render and the localStorage write do not
change the catalog state. -/
def addProject (st : ProjectsState) (input : ProjectInput) (now : Int) :
    Except String Project × ProjectsState :=
  if strFalsy input.name || strFalsy input.github then
    (Except.error "必須フィールド（name, github）が不足しています", st)
  else
    let pid := if strFalsy input.id then generateId st.projects (input.name.getD "")
               else input.id.getD ""
    let newProject : Project :=
      { id := pid
        name := input.name.getD ""
        description := jsOr input.description ""
        icon := jsOr input.icon (getLanguageIcon input.language)
        technologies := input.technologies.getD []
        github := input.github.getD ""
        demo := match input.demo with
                | none => none
                | some s => if s = "" then none else some s
        featured := input.featured.getD false
        createdAt := now
        status := "active"
        color := jsOr input.color "#333"
        language := jsOr input.language "Other" }
    let projects := newProject :: st.projects
    (Except.ok newProject, { st with projects := projects, filteredProjects := projects })

/-- Sequence of addProject calls (each one either succeeds or throws
without mutating, so the surviving state is the fold of the successes). -/
def addProjects (st : ProjectsState) (inputs : List ProjectInput) (now : Int) : ProjectsState :=
  inputs.foldl (fun s i => (addProject s i now).2) st

/-- The sort comparator of ProjectsManager.displayProjects (featured first,
then newest createdAt first); the date subtraction of the source becomes
integer subtraction of the modelled date values. -/
def projectCmp (a b : Project) : Int :=
  if a.featured && !b.featured then -1
  else if !a.featured && b.featured then 1
  else b.createdAt - a.createdAt

/-- Non-strict order induced by the comparator: a may stay before b exactly
when the comparator does not order b strictly first. -/
def projectLE (a b : Project) : Bool :=
  decide (projectCmp a b <= 0)

/-- ProjectsManager.displayProjects restricted to the data it renders and
dispatches: the given list, sorted with the comparator when the
showFeaturedFirst setting is on (Array.prototype.sort is stable, as is
List.mergeSort).  The DOM writing, empty placeholder and animation classes
carry no further catalog state. -/
def displayProjects (settings : Settings) (projects : List Project) : List Project :=
  if settings.showFeaturedFirst then
    projects.mergeSort projectLE
  else projects

/-- ProjectsManager.filterByTechnology: an absent or empty tag resets the
view; otherwise keeps projects with a technology containing the tag,
case-insensitively. -/
def filterByTechnology (st : ProjectsState) (tech : Option String) : ProjectsState :=
  if strFalsy tech then { st with filteredProjects := st.projects }
  else { st with filteredProjects := st.projects.filter (fun p =>
    p.technologies.any (fun t => strIncludes t.toLower (tech.getD "").toLower)) }

/-- ProjectsManager.filterByLanguage: an absent or empty language resets
the view; otherwise keeps projects whose truthy language field matches
case-insensitively. -/
def filterByLanguage (st : ProjectsState) (language : Option String) : ProjectsState :=
  if strFalsy language then { st with filteredProjects := st.projects }
  else { st with filteredProjects := st.projects.filter (fun p =>
    !(p.language = "") && (p.language.toLower = (language.getD "").toLower)) }

/-- ProjectsManager.searchProjects: an absent or empty query resets the
view; otherwise keeps projects whose name, description or a technology
contains the query, case-insensitively. -/
def searchProjects (st : ProjectsState) (query : Option String) : ProjectsState :=
  if strFalsy query then { st with filteredProjects := st.projects }
  else
    let searchTerm := (query.getD "").toLower
    { st with filteredProjects := st.projects.filter (fun p =>
        strIncludes p.name.toLower searchTerm ||
        strIncludes p.description.toLower searchTerm ||
        p.technologies.any (fun t => strIncludes t.toLower searchTerm)) }

/-- The hard-coded gominage seed project of loadFallbackData; its createdAt
string 2025-01-01 is modelled by that date's epoch-millisecond value. -/
def gominageProject : Project :=
  { id := "gominage"
    name := "gominage"
    description := "HTML5 Canvasを使用したブラウザゲーム。JavaScript ES6+とカスタム物理シミュレーションで開発されたクライアントサイドゲームです。"
    icon := "fab fa-js-square"
    technologies := ["JavaScript", "HTML5", "CSS3", "Canvas"]
    github := "https://github.com/minngk/gominage"
    demo := none
    featured := true
    createdAt := 1735689600000
    status := "active"
    color := "#F7DF1E"
    language := "JavaScript" }

/-- ProjectsManager.loadFallbackData: installs the one-project seed
catalog, mirrors it into the view and marks the manager loaded (settings
are left untouched). -/
def loadFallbackData (st : ProjectsState) : ProjectsState :=
  let ps := [gominageProject]
  { st with projects := ps, filteredProjects := ps, isLoaded := true }

/-- Decoded body of the projects.json resource; both top-level keys may be
absent. -/
structure ProjectsData where
  projects : Option (List Project) := none
  settings : Option Settings := none
deriving Repr

/-- Outcome of the awaited fetch plus JSON decode of ./data/projects.json:
failure covers transport errors, non-ok statuses (the code throws on
!response.ok) and parse errors, all reaching the same catch. -/
inductive LoadOutcome where
  | success (data : ProjectsData)
  | failure
deriving Repr

/-- ProjectsManager.loadProjects: on success installs the decoded catalog
and settings (with defaults for absent keys) and marks the manager loaded;
any failure is caught and routed to loadFallbackData, so the function never
throws to its caller — in this embedding it is a total function. -/
def loadProjects (st : ProjectsState) (outcome : LoadOutcome) : ProjectsState :=
  match outcome with
  | LoadOutcome.success data =>
    let ps := data.projects.getD []
    { st with projects := ps
              settings := data.settings.getD {}
              filteredProjects := ps
              isLoaded := true }
  | LoadOutcome.failure => loadFallbackData st

/-! ### ThemeManager (src/unnamed/part_002, the repository file js/theme.js) -/

/-- One named theme: display name plus the colors mapping, an
insertion-ordered list of CSS custom-property name/value pairs. -/
structure Theme where
  name : String
  colors : List (String × String)
deriving DecidableEq, Repr

/-- The built-in cafe theme of the ThemeManager constructor. -/
def cafeTheme : Theme :=
  { name := "Cafe"
    colors := [("primary-bg", "linear-gradient(135deg, #f7f3e9 0%, #e8ddd4 100%)"),
               ("text-primary", "#6b4423"),
               ("text-secondary", "#8b6f47"),
               ("accent-primary", "#d4a574"),
               ("accent-secondary", "#b8956a"),
               ("card-bg", "rgba(255, 255, 255, 0.8)"),
               ("shadow-light", "rgba(107, 68, 35, 0.1)"),
               ("shadow-medium", "rgba(107, 68, 35, 0.2)")] }

/-- The built-in dark theme of the ThemeManager constructor. -/
def darkTheme : Theme :=
  { name := "Dark"
    colors := [("primary-bg", "linear-gradient(135deg, #2c1810 0%, #3d2817 100%)"),
               ("text-primary", "#f4e6d3"),
               ("text-secondary", "#d4c4a8"),
               ("accent-primary", "#d4a574"),
               ("accent-secondary", "#b8956a"),
               ("card-bg", "rgba(0, 0, 0, 0.3)"),
               ("shadow-light", "rgba(0, 0, 0, 0.3)"),
               ("shadow-medium", "rgba(0, 0, 0, 0.5)")] }

/-- The built-in ocean theme of the ThemeManager constructor. -/
def oceanTheme : Theme :=
  { name := "Ocean"
    colors := [("primary-bg", "linear-gradient(135deg, #e6f7ff 0%, #bae0ff 100%)"),
               ("text-primary", "#003a8c"),
               ("text-secondary", "#1f54a3"),
               ("accent-primary", "#1890ff"),
               ("accent-secondary", "#096dd9"),
               ("card-bg", "rgba(255, 255, 255, 0.8)"),
               ("shadow-light", "rgba(0, 58, 140, 0.1)"),
               ("shadow-medium", "rgba(0, 58, 140, 0.2)")] }

/-- The built-in forest theme of the ThemeManager constructor. -/
def forestTheme : Theme :=
  { name := "Forest"
    colors := [("primary-bg", "linear-gradient(135deg, #f0f9f0 0%, #d9f7be 100%)"),
               ("text-primary", "#135200"),
               ("text-secondary", "#389e0d"),
               ("accent-primary", "#52c41a"),
               ("accent-secondary", "#73d13d"),
               ("card-bg", "rgba(255, 255, 255, 0.8)"),
               ("shadow-light", "rgba(19, 82, 0, 0.1)"),
               ("shadow-medium", "rgba(19, 82, 0, 0.2)")] }

/-- The this.themes registry of the constructor, in JS object insertion
order. -/
def builtinThemes : List (String × Theme) :=
  [("cafe", cafeTheme), ("dark", darkTheme), ("ocean", oceanTheme), ("forest", forestTheme)]

/-- The mutable state of a ThemeManager instance together with the page
state it drives: the registry, this.currentTheme, the persisted
portfolio-theme localStorage slot, and the CSS custom properties set so far
on the document root. -/
structure ThemeState where
  themes : List (String × Theme)
  currentTheme : String
  savedTheme : Option String
  page : List (String × String)
deriving DecidableEq, Repr

/-- Theme state right after the constructor assigns this.themes and
this.currentTheme (before init runs). -/
def initialThemeState : ThemeState :=
  { themes := builtinThemes, currentTheme := "cafe", savedTheme := none, page := [] }

/-- Model of style.setProperty on the document root: replace the value of
an existing custom property in place, or append a new one. -/
def setProp (page : List (String × String)) (k v : String) : List (String × String) :=
  match page with
  | [] => [(k, v)]
  | (k0, v0) :: rest => if k0 = k then (k0, v) :: rest else (k0, v0) :: setProp rest k v

/-- The Object.entries(theme.colors).forEach(setProperty) loop of
applyTheme. -/
def setProps (page : List (String × String)) (colors : List (String × String)) :
    List (String × String) :=
  colors.foldl (fun p kv => setProp p kv.1 kv.2) page

/-- ThemeManager.applyTheme: an unregistered name only logs a warning and
changes nothing; otherwise the colors are written to the page, the current
theme is switched, and the name is persisted.  The body class, the
themeChanged event and the selector refresh carry no further modelled
state. -/
def applyTheme (st : ThemeState) (name : String) : ThemeState :=
  match List.lookup name st.themes with
  | none => st
  | some theme =>
    { st with page := setProps st.page theme.colors
              currentTheme := name
              savedTheme := some name }

/-- The JS capitalization name.charAt(0).toUpperCase() + name.slice(1) used
for the display name of a custom theme. -/
def capitalizeJs (s : String) : String :=
  match s.data with
  | [] => ""
  | c :: cs => (c.toUpper :: cs).asString

/-- ThemeManager.addCustomTheme: fails (false, warning only) when the name
is already registered; otherwise appends the new theme to the registry. -/
def addCustomTheme (st : ThemeState) (name : String) (colors : List (String × String)) :
    Bool × ThemeState :=
  match List.lookup name st.themes with
  | some _ => (false, st)
  | none =>
    (true, { st with themes := st.themes ++ [(name, { name := capitalizeJs name, colors := colors })] })

/-- The delete this.themes[name] statement. -/
def removeThemeKey (themes : List (String × Theme)) (name : String) : List (String × Theme) :=
  themes.filter (fun kv => kv.1 ≠ name)

/-- ThemeManager.removeCustomTheme: refuses the four built-in names and
unknown names (returning false with nothing changed); otherwise deletes the
entry and, when the removed theme was active, falls back to applying
cafe. -/
def removeCustomTheme (st : ThemeState) (name : String) : Bool × ThemeState :=
  if name ∈ ["cafe", "dark", "ocean", "forest"] then (false, st)
  else
    match List.lookup name st.themes with
    | none => (false, st)
    | some _ =>
      let st1 := { st with themes := removeThemeKey st.themes name }
      if st1.currentTheme = name then (true, applyTheme st1 "cafe") else (true, st1)

/-- The object returned by ThemeManager.exportTheme: current theme name,
its colors, and a Date.now() capture timestamp. -/
structure ExportData where
  name : String
  colors : List (String × String)
  timestamp : Int
deriving DecidableEq, Repr

/-- ThemeManager.exportTheme.  The registry entry of this.currentTheme is
dereferenced without a check; none models the TypeError of an unregistered
current theme (unreachable from the constructor state). -/
def exportTheme (st : ThemeState) (now : Int) : Option ExportData :=
  (List.lookup st.currentTheme st.themes).map
    (fun t => { name := st.currentTheme, colors := t.colors, timestamp := now })

/-- Payload accepted by ThemeManager.importTheme; both keys may be absent
(a present colors object is always truthy). -/
structure ImportData where
  name : Option String := none
  colors : Option (List (String × String)) := none
deriving Repr

/-- Conversion of an exported theme back into an import payload (the
timestamp key is never read by importTheme). -/
def toImportData (e : ExportData) : ImportData :=
  { name := some e.name, colors := some e.colors }

/-- ThemeManager.importTheme: a payload with a falsy name or missing colors
throws into the local catch and yields false with nothing changed;
otherwise addCustomTheme is attempted (its failure indicator is ignored)
and the named theme is applied. -/
def importTheme (st : ThemeState) (data : ImportData) : Bool × ThemeState :=
  if strFalsy data.name || data.colors.isNone then (false, st)
  else
    let st1 := (addCustomTheme st (data.name.getD "") (data.colors.getD [])).2
    (true, applyTheme st1 (data.name.getD ""))

/-! ### Auxiliary definitions used by the theorems -/

/-- Rendering order stated by the spec: featured descending, then creation
timestamp descending. -/
def featuredOrder (a b : Project) : Prop :=
  (a.featured = true ∧ b.featured = false) ∨ (a.featured = b.featured ∧ b.createdAt <= a.createdAt)

/-- Project A of the sort-stability scenario: not featured, created
2024-01-01 (epoch milliseconds). -/
def c5ProjectA : Project :=
  { id := "a"
    name := "A"
    description := ""
    icon := ""
    technologies := []
    github := "https://example.com/a"
    demo := none
    featured := false
    createdAt := 1704067200000
    status := "active"
    color := ""
    language := "" }

/-- Project B of the sort-stability scenario: featured, created
2023-01-01. -/
def c5ProjectB : Project :=
  { c5ProjectA with id := "b", name := "B", featured := true, createdAt := 1672531200000 }

/-- Project C of the sort-stability scenario: not featured, created
2024-06-01. -/
def c5ProjectC : Project :=
  { c5ProjectA with id := "c", name := "C", featured := false, createdAt := 1717200000000 }

/-- The sequence of candidate ids tried by the generateId while loop:
the bare slug first, then slug-1, slug-2, and so on. -/
def genCandidate (baseId : String) : Nat → String
  | 0 => baseId
  | k + 1 => baseId ++ "-" ++ Nat.repr (k + 1)

/-- Decimal decoder for digit lists, the left inverse of Nat.toDigits 10
used to prove that distinct counters give distinct id suffixes. -/
def decodeDigits (l : List Char) : Nat :=
  l.foldl (fun a c => 10 * a + (c.toNat - 48)) 0

/-- Input with the name of the id-uniqueness scenario and no explicit
id. -/
def myProjectInput : ProjectInput :=
  { name := some "My Project!", github := some "https://example.com" }

/-- Input that supplies an explicit id colliding with the seed catalog. -/
def dupIdInput : ProjectInput :=
  { id := some "gominage", name := some "another", github := some "https://example.com/x" }

end Portfolio

namespace Portfolio

/-! ### Theorems for the GitHubAPI claims -/

/-- C1: for a cache entry with capture timestamp T (capture timestamps come
from Date.now() and are positive) and TTL L, fetchUserData strictly before
T + L returns the cached snapshot with zero network calls; at or after
T + L, or with no entry, it issues exactly one request; validity is exactly
now - timestamp < ttl; and the constructor sets the TTL to five minutes in
milliseconds. -/
theorem fetchUserData_cache_ttl (c : Cache) (d : ProfileSnapshot) (T now : Int)
    (outcome : FetchOutcome) (hd : c.data = some d) (ht : c.timestamp = some T)
    (hT : 0 < T) :
    (now < T + c.ttl →
      fetchUserData c now outcome =
        { snapshot := d, cache := c, networkCalls := 0, diagnostic := false }) ∧
    (T + c.ttl ≤ now → (fetchUserData c now outcome).networkCalls = 1) ∧
    (isCacheValid c now = true ↔ now - T < c.ttl) ∧
    (∀ (c2 : Cache) (now2 : Int), c2.data = none →
      (fetchUserData c2 now2 outcome).networkCalls = 1) ∧
    initialCache.ttl = 5 * 60 * 1000 := by
  have hT0 : T ≠ 0 := by omega
  have hvalid : isCacheValid c now = decide (now - T < c.ttl) := by
    simp [isCacheValid, hd, ht, hT0]
  refine ⟨?_, ?_, ?_, ?_, rfl⟩
  · intro hlt
    have h1 : isCacheValid c now = true := by
      rw [hvalid]; simpa using by omega
    simp [fetchUserData, h1, hd]
  · intro hge
    have h1 : isCacheValid c now = false := by
      rw [hvalid]; simpa using by omega
    cases outcome <;> simp [fetchUserData, h1]
  · rw [hvalid]; simp
  · intro c2 now2 h2
    have h1 : isCacheValid c2 now2 = false := by
      simp [isCacheValid, h2]
    cases outcome <;> simp [fetchUserData, h1]

/-- Witness for fetchUserData_cache_ttl at a concrete cache entry. -/
theorem fetchUserData_cache_ttl_witness :
    fetchUserData { data := some sentinelSnapshot, timestamp := some 1000, ttl := 5 * 60 * 1000 }
        2000 FetchOutcome.failure =
      { snapshot := sentinelSnapshot
        cache := { data := some sentinelSnapshot, timestamp := some 1000, ttl := 5 * 60 * 1000 }
        networkCalls := 0
        diagnostic := false } :=
  (fetchUserData_cache_ttl _ sentinelSnapshot 1000 2000 FetchOutcome.failure rfl rfl
    (by norm_num)).1 (by norm_num)

/-- C2: when no valid cache entry exists (so that a remote call happens at
all) and the call fails, fetchUserData returns — rather than raising, the
embedding being a total function whose catch branch this is — the sentinel
snapshot, whose three counters are the unknown marker and whose six text
fields are all empty, and logs the console.warn diagnostic. -/
theorem fetchUserData_failure_sentinel (c : Cache) (now : Int)
    (h : isCacheValid c now = false) :
    fetchUserData c now FetchOutcome.failure =
      { snapshot := sentinelSnapshot, cache := c, networkCalls := 1, diagnostic := true } ∧
    sentinelSnapshot.public_repos = Counter.unknown ∧
    sentinelSnapshot.followers = Counter.unknown ∧
    sentinelSnapshot.following = Counter.unknown ∧
    sentinelSnapshot.avatar_url = "" ∧
    sentinelSnapshot.bio = "" ∧
    sentinelSnapshot.location = "" ∧
    sentinelSnapshot.company = "" ∧
    sentinelSnapshot.blog = "" ∧
    sentinelSnapshot.created_at = "" := by
  refine ⟨?_, rfl, rfl, rfl, rfl, rfl, rfl, rfl, rfl, rfl⟩
  simp [fetchUserData, h]

/-- Witness for fetchUserData_failure_sentinel on the constructor cache. -/
theorem fetchUserData_failure_sentinel_witness :
    fetchUserData initialCache 0 FetchOutcome.failure =
      { snapshot := sentinelSnapshot, cache := initialCache, networkCalls := 1, diagnostic := true } :=
  (fetchUserData_failure_sentinel initialCache 0 rfl).1

/-- C10: a failed fetch leaves the cache object untouched (the sentinel is
never stored), invalidity persists at any later time, and therefore the
next call after a failure issues a network request again instead of serving
the sentinel from the cache. -/
theorem fetchUserData_failure_keeps_cache (c : Cache) (now now2 : Int)
    (outcome2 : FetchOutcome) (h : isCacheValid c now = false) (hle : now <= now2) :
    (fetchUserData c now FetchOutcome.failure).cache = c ∧
    isCacheValid c now2 = false ∧
    (fetchUserData (fetchUserData c now FetchOutcome.failure).cache now2 outcome2).networkCalls = 1 := by
  have hc : (fetchUserData c now FetchOutcome.failure).cache = c := by
    simp [fetchUserData, h]
  have h2 : isCacheValid c now2 = false := by
    rcases c with ⟨data, timestamp, ttl⟩
    rcases data with _ | d
    · rfl
    rcases timestamp with _ | ts
    · rfl
    by_cases hts : ts = 0
    · simp [isCacheValid, hts]
    · simp only [isCacheValid, hts, if_false, decide_eq_false_iff_not, not_lt] at h ⊢
      omega
  refine ⟨hc, h2, ?_⟩
  rw [hc]
  cases outcome2 <;> simp [fetchUserData, h2]

/-- Witness for fetchUserData_failure_keeps_cache on the constructor
cache. -/
theorem fetchUserData_failure_keeps_cache_witness :
    (fetchUserData initialCache 0 FetchOutcome.failure).cache = initialCache ∧
    isCacheValid initialCache 5 = false ∧
    (fetchUserData (fetchUserData initialCache 0 FetchOutcome.failure).cache 5
      FetchOutcome.failure).networkCalls = 1 :=
  fetchUserData_failure_keeps_cache initialCache 0 5 FetchOutcome.failure rfl (by norm_num)

/-- C7: an absent and an empty argument to searchProjects, and likewise to
filterByTechnology and filterByLanguage, both reset the stored view
(this.filteredProjects, the ProjectView) to the full catalog in its
original order. -/
theorem filters_reset_view (st : ProjectsState) :
    (searchProjects st none).filteredProjects = st.projects ∧
    (searchProjects st (some "")).filteredProjects = st.projects ∧
    (filterByTechnology st none).filteredProjects = st.projects ∧
    (filterByTechnology st (some "")).filteredProjects = st.projects ∧
    (filterByLanguage st none).filteredProjects = st.projects ∧
    (filterByLanguage st (some "")).filteredProjects = st.projects := by
  refine ⟨rfl, ?_, rfl, ?_, rfl, ?_⟩ <;>
    simp [searchProjects, filterByTechnology, filterByLanguage, strFalsy]

/-- C9: loadProjects marks the catalog loaded on every path, its embedding
is a total function (the source catch swallows transport, status and parse
failures, so nothing escapes the boundary), and every failure installs
exactly the one-element hard-coded seed catalog, never an empty one. -/
theorem loadProjects_total_fallback (st : ProjectsState) (outcome : LoadOutcome) :
    (loadProjects st outcome).isLoaded = true ∧
    loadProjects st LoadOutcome.failure = loadFallbackData st ∧
    (loadFallbackData st).projects = [gominageProject] ∧
    (loadFallbackData st).projects.length = 1 ∧
    (loadFallbackData st).isLoaded = true := by
  refine ⟨?_, rfl, rfl, rfl, rfl⟩
  cases outcome <;> rfl

/-- C8: removeCustomTheme on any of the four built-in names returns the
failure indicator and leaves the whole state — registry, active theme,
persisted choice and page — unchanged. -/
theorem removeCustomTheme_builtin_protected (st : ThemeState) (name : String)
    (h : name ∈ ["cafe", "dark", "ocean", "forest"]) :
    removeCustomTheme st name = (false, st) := by
  simp [removeCustomTheme, h]

/-- Witness for removeCustomTheme_builtin_protected: removing cafe fails
with no state change. -/
theorem removeCustomTheme_builtin_protected_witness :
    removeCustomTheme initialThemeState "cafe" = (false, initialThemeState) :=
  removeCustomTheme_builtin_protected initialThemeState "cafe" (by simp)

/-- C6: addProject of the empty input (name and github both missing) throws
the validation error to its caller and leaves the catalog unchanged, while
addProject with a non-empty name and github succeeds, puts the new project
at the front of the catalog (index 0), and fills every omitted field with
its stated default: empty description, the default icon of the absent
language, empty technology list, no demo link, featured false, the current
timestamp, status active, the default color and the default language. -/
theorem addProject_validation_and_defaults (st : ProjectsState) (now : Int)
    (n g : String) (hn : n ≠ "") (hg : g ≠ "") :
    addProject st {} now =
      (Except.error "必須フィールド（name, github）が不足しています", st) ∧
    (let p : Project :=
      { id := generateId st.projects n
        name := n
        description := ""
        icon := "fas fa-code"
        technologies := []
        github := g
        demo := none
        featured := false
        createdAt := now
        status := "active"
        color := "#333"
        language := "Other" }
     addProject st { name := some n, github := some g } now =
       (Except.ok p, { st with projects := p :: st.projects
                               filteredProjects := p :: st.projects })) := by
  constructor
  · rfl
  · simp [addProject, strFalsy, hn, hg, jsOr, getLanguageIcon]

/-- Transitivity of the comparator-induced order (needed for the sortedness
of the stable merge sort). -/
theorem projectLE_trans (a b c : Project) :
    projectLE a b → projectLE b c → projectLE a c := by
  cases ha : a.featured <;> cases hb : b.featured <;> cases hc : c.featured <;>
    simp_all [projectLE, projectCmp] <;> omega

/-- Totality of the comparator-induced order. -/
theorem projectLE_total (a b : Project) : projectLE a b || projectLE b a := by
  cases ha : a.featured <;> cases hb : b.featured <;>
    simp_all [projectLE, projectCmp] <;> omega

/-- The comparator-induced order coincides with the order the spec states:
featured descending, then creation timestamp descending. -/
theorem projectLE_iff (a b : Project) : projectLE a b = true ↔ featuredOrder a b := by
  cases ha : a.featured <;> cases hb : b.featured <;>
    simp_all [projectLE, projectCmp, featuredOrder]

/-- C5: with showFeaturedFirst on, displayProjects renders a permutation of
the given projects that is pairwise ordered by featured descending then
creation timestamp descending; in particular the scenario projects
A (not featured, 2024-01-01), B (featured, 2023-01-01) and
C (not featured, 2024-06-01) are rendered in the order B, C, A. -/
theorem displayProjects_featured_first :
    (∀ ps : List Project,
      (displayProjects { showFeaturedFirst := true } ps).Pairwise featuredOrder) ∧
    (∀ ps : List Project,
      (displayProjects { showFeaturedFirst := true } ps).Perm ps) ∧
    displayProjects { showFeaturedFirst := true } [c5ProjectA, c5ProjectB, c5ProjectC] =
      [c5ProjectB, c5ProjectC, c5ProjectA] := by
  refine ⟨?_, ?_, ?_⟩
  · intro ps
    have h := @List.sorted_mergeSort Project projectLE projectLE_trans projectLE_total ps
    have h2 : (List.mergeSort ps projectLE).Pairwise featuredOrder :=
      h.imp (fun hab => (projectLE_iff _ _).1 hab)
    simpa [displayProjects] using h2
  · intro ps
    simpa [displayProjects] using List.mergeSort_perm ps projectLE
  · simp [displayProjects, List.mergeSort, List.merge, c5ProjectA, c5ProjectB, c5ProjectC,
      projectLE, projectCmp]

/-- Witness for addProject_validation_and_defaults on the constructor
state. -/
theorem addProject_validation_and_defaults_witness :
    addProject initialProjectsState {} 0 =
      (Except.error "必須フィールド（name, github）が不足しています", initialProjectsState) :=
  (addProject_validation_and_defaults initialProjectsState 0 "x" "https://example.com/x"
    (by decide) (by decide)).1

/-- Looking up a key right after upserting it yields the new value. -/
theorem lookup_setProp_self (p : List (String × String)) (k v : String) :
    List.lookup k (setProp p k v) = some v := by
  induction p with
  | nil => simp [setProp]
  | cons kv rest ih =>
    obtain ⟨k0, v0⟩ := kv
    by_cases h : k0 = k
    · subst h; simp [setProp]
    · have hb : (k == k0) = false := beq_eq_false_iff_ne.mpr (Ne.symm h)
      simp [setProp, h, List.lookup, hb, ih]

/-- Upserting the value a key already holds leaves the page unchanged. -/
theorem setProp_of_lookup (p : List (String × String)) (k v : String)
    (h : List.lookup k p = some v) : setProp p k v = p := by
  induction p with
  | nil => simp [List.lookup] at h
  | cons kv rest ih =>
    obtain ⟨k0, v0⟩ := kv
    by_cases hk : k0 = k
    · subst hk
      simp [List.lookup] at h
      simp [setProp, h]
    · have hb : (k == k0) = false := beq_eq_false_iff_ne.mpr (Ne.symm hk)
      simp [List.lookup, hb] at h
      simp [setProp, hk, ih h]

/-- Upserting one key does not change the binding of another. -/
theorem lookup_setProp_other (p : List (String × String)) (k k2 v : String)
    (h : k ≠ k2) : List.lookup k (setProp p k2 v) = List.lookup k p := by
  have hb : (k == k2) = false := beq_eq_false_iff_ne.mpr h
  induction p with
  | nil => simp [setProp, List.lookup, hb]
  | cons kv rest ih =>
    obtain ⟨k0, v0⟩ := kv
    by_cases hk : k0 = k2
    · subst hk
      simp [setProp, List.lookup, hb, ih]
    · simp [setProp, hk, List.lookup, ih]

/-- Unfolding of the property-writing loop on a cons cell. -/
theorem setProps_cons (p : List (String × String)) (k v : String)
    (cs : List (String × String)) :
    setProps p ((k, v) :: cs) = setProps (setProp p k v) cs := rfl

/-- Writing a batch of properties does not change the binding of a key
outside the batch. -/
theorem lookup_setProps_not_mem (cs : List (String × String))
    (p : List (String × String)) (k : String) (h : k ∉ cs.map Prod.fst) :
    List.lookup k (setProps p cs) = List.lookup k p := by
  induction cs generalizing p with
  | nil => rfl
  | cons kv cs ih =>
    obtain ⟨k2, v2⟩ := kv
    simp only [List.map_cons, List.mem_cons, not_or] at h
    rw [setProps_cons, ih _ h.2, lookup_setProp_other _ _ _ _ h.1]

/-- Writing the same batch of properties (with pairwise distinct keys)
twice is the same as writing it once. -/
theorem setProps_idem (p : List (String × String)) (cs : List (String × String))
    (h : (cs.map Prod.fst).Nodup) : setProps (setProps p cs) cs = setProps p cs := by
  induction cs generalizing p with
  | nil => rfl
  | cons kv cs ih =>
    obtain ⟨k, v⟩ := kv
    simp only [List.map_cons, List.nodup_cons] at h
    rw [setProps_cons, setProps_cons]
    have hl : List.lookup k (setProps (setProp p k v) cs) = some v := by
      rw [lookup_setProps_not_mem cs _ k h.1, lookup_setProp_self]
    rw [setProp_of_lookup _ _ _ hl, ih _ h.2]

/-- C4 counterexample: the object returned by exportTheme also carries a
timestamp field (Date.now() at export time), so it is not exactly the
two-field object the claim states: two exports of one identical state,
taken at clock values 0 and 1, are different objects, even though their
name and colors parts both match the claim. -/
theorem exportTheme_carries_timestamp :
    exportTheme (applyTheme initialThemeState "dark") 0 ≠
      exportTheme (applyTheme initialThemeState "dark") 1 ∧
    (exportTheme (applyTheme initialThemeState "dark") 0).map ExportData.name = some "dark" ∧
    (exportTheme (applyTheme initialThemeState "dark") 0).map ExportData.colors =
      some darkTheme.colors ∧
    (exportTheme (applyTheme initialThemeState "dark") 0).map ExportData.timestamp = some 0 := by
  refine ⟨?_, rfl, rfl, rfl⟩
  decide

/-- C4 amended: in any state whose registry maps dark to the built-in dark
theme, exportTheme right after applyTheme dark yields the object with name
dark, the dark color mapping, and the export-time timestamp; importTheme of
that exported object succeeds (the addCustomTheme failure on the existing
name is ignored) and, followed by applyTheme dark, reproduces the identical
color mapping on the page. -/
theorem theme_export_import_roundtrip (st : ThemeState) (t : Int)
    (h : List.lookup "dark" st.themes = some darkTheme) :
    exportTheme (applyTheme st "dark") t =
      some { name := "dark", colors := darkTheme.colors, timestamp := t } ∧
    (importTheme (applyTheme st "dark")
        (toImportData { name := "dark", colors := darkTheme.colors, timestamp := t })).1 = true ∧
    (applyTheme (importTheme (applyTheme st "dark")
        (toImportData { name := "dark", colors := darkTheme.colors, timestamp := t })).2
      "dark").page = (applyTheme st "dark").page := by
  have hnodup : (darkTheme.colors.map Prod.fst).Nodup := by decide
  have hf : strFalsy (some "dark") = false := by decide
  refine ⟨?_, ?_, ?_⟩
  · simp [applyTheme, h, exportTheme]
  · simp [importTheme, toImportData, hf]
  · simp [applyTheme, h, importTheme, toImportData, hf, strFalsy, addCustomTheme]
    rw [setProps_idem _ _ hnodup, setProps_idem _ _ hnodup]

/-- Accumulator lemma for the decimal digit printer of Nat.repr. -/
theorem toDigitsCore_acc (b : Nat) :
    ∀ (fuel n : Nat) (ds : List Char),
      Nat.toDigitsCore b fuel n ds = Nat.toDigitsCore b fuel n [] ++ ds := by
  intro fuel
  induction fuel with
  | zero => intro n ds; simp [Nat.toDigitsCore]
  | succ f ih =>
    intro n ds
    by_cases h : n / b = 0
    · simp [Nat.toDigitsCore, h]
    · simp only [Nat.toDigitsCore, h, if_false]
      rw [ih (n / b) (Nat.digitChar (n % b) :: ds), ih (n / b) [Nat.digitChar (n % b)]]
      simp

/-- Character code of a decimal digit character. -/
theorem digitChar_toNat (d : Nat) (h : d < 10) : (Nat.digitChar d).toNat = d + 48 := by
  interval_cases d <;> rfl

/-- The decimal decoder is a left inverse of the digit printer, provided
the printer has enough fuel. -/
theorem decode_toDigitsCore :
    ∀ (n : Nat), ∀ (fuel : Nat), n < fuel →
      decodeDigits (Nat.toDigitsCore 10 fuel n []) = n := by
  intro n
  induction n using Nat.strong_induction_on with
  | _ n ih =>
    intro fuel hf
    obtain ⟨f, rfl⟩ : ∃ f, fuel = f + 1 := ⟨fuel - 1, by omega⟩
    by_cases h : n / 10 = 0
    · have hn : n < 10 := by omega
      have hmod : n % 10 = n := Nat.mod_eq_of_lt hn
      simp only [Nat.toDigitsCore, h, if_true, hmod]
      simp [decodeDigits, digitChar_toNat n hn]
    · simp only [Nat.toDigitsCore, h, if_false]
      rw [toDigitsCore_acc]
      have hlt : n / 10 < n := Nat.div_lt_self (by omega) (by omega)
      have hfl : n / 10 < f := by omega
      have ihh := ih (n / 10) hlt f hfl
      rw [decodeDigits] at ihh
      rw [decodeDigits, List.foldl_append, ihh]
      have hd := digitChar_toNat (n % 10) (Nat.mod_lt n (by omega))
      simp [hd]
      omega

/-- Nat.repr is injective: distinct numbers print as distinct strings. -/
theorem natRepr_injective {m n : Nat} (h : Nat.repr m = Nat.repr n) : m = n := by
  have hd : Nat.toDigits 10 m = Nat.toDigits 10 n := by
    have h2 := congrArg String.data h
    simpa [Nat.repr, List.asString] using h2
  have h1 := decode_toDigitsCore m (m + 1) (by omega)
  have h2 := decode_toDigitsCore n (n + 1) (by omega)
  simp only [Nat.toDigits] at hd
  rw [hd] at h1
  omega

/-- Distinct loop counters give distinct candidate ids. -/
theorem genCandidate_inj (baseId : String) : ∀ {i j : Nat},
    genCandidate baseId i = genCandidate baseId j → i = j := by
  have hdash : ("-" : String).length = 1 := rfl
  intro i j h
  match i, j with
  | 0, 0 => rfl
  | 0, k + 1 =>
    exfalso
    have hl := congrArg String.length h
    simp [genCandidate, hdash] at hl
    omega
  | k + 1, 0 =>
    exfalso
    have hl := congrArg String.length h
    simp [genCandidate, hdash] at hl
    omega
  | k + 1, l + 1 =>
    have hdata := congrArg String.data h
    simp only [genCandidate, String.data_append, List.append_assoc] at hdata
    have h1 := List.append_cancel_left hdata
    have h2 := List.append_cancel_left h1
    have h3 : Nat.repr (k + 1) = Nat.repr (l + 1) := String.ext h2
    have := natRepr_injective h3
    omega

/-- Either the generateId loop returns an id outside the catalog, or every
candidate it had fuel for is already taken. -/
theorem genLoop_spec (ids : List String) (base : String) :
    ∀ (fuel j : Nat),
      genLoop ids base (genCandidate base j) (j + 1) fuel ∉ ids ∨
      (∀ i, j ≤ i → i < j + fuel → genCandidate base i ∈ ids) := by
  intro fuel
  induction fuel with
  | zero =>
    intro j
    right
    intro i h1 h2
    exact absurd h2 (by omega)
  | succ f ih =>
    intro j
    by_cases h : genCandidate base j ∈ ids
    · have hstep : genLoop ids base (genCandidate base j) (j + 1) (f + 1) =
          genLoop ids base (genCandidate base (j + 1)) (j + 1 + 1) f := by
        have hcand : genCandidate base (j + 1) = base ++ "-" ++ Nat.repr (j + 1) := rfl
        rw [hcand]
        simp [genLoop, h]
      rw [hstep]
      rcases ih (j + 1) with hfree | hall
      · exact Or.inl hfree
      · right
        intro i h1 h2
        rcases Nat.eq_or_lt_of_le h1 with rfl | hlt
        · exact h
        · exact hall i (by omega) (by omega)
    · left
      simp [genLoop, h]

/-- Pigeonhole on lists: a duplicate-free list contained in another is no
longer than it. -/
theorem nodup_subset_length {l1 l2 : List String} (hn : l1.Nodup) (hs : l1 ⊆ l2) :
    l1.length <= l2.length := by
  have h1 : l1.toFinset.card = l1.length := List.toFinset_card_of_nodup hn
  have h2 : l1.toFinset ⊆ l2.toFinset := by
    intro x hx
    rw [List.mem_toFinset] at hx ⊢
    exact hs hx
  calc l1.length = l1.toFinset.card := h1.symm
    _ ≤ l2.toFinset.card := Finset.card_le_card h2
    _ ≤ l2.length := List.toFinset_card_le l2

/-- The id generated from a name is never one of the existing project ids:
the loop tries projects.length + 1 pairwise distinct candidates, which
cannot all occur among the projects.length existing ids. -/
theorem generateId_not_mem (ps : List Project) (name : String) :
    generateId ps name ∉ ps.map Project.id := by
  rw [generateId]
  rcases genLoop_spec (ps.map Project.id) (slugify name) (ps.length + 1) 0 with h | hall
  · simpa [genCandidate] using h
  · exfalso
    have hsub : (List.range (ps.length + 1)).map (genCandidate (slugify name)) ⊆
        ps.map Project.id := by
      intro x hx
      simp only [List.mem_map, List.mem_range] at hx
      obtain ⟨i, hi, rfl⟩ := hx
      exact hall i (by omega) (by omega)
    have hnd : ((List.range (ps.length + 1)).map (genCandidate (slugify name))).Nodup :=
      (List.nodup_range _).map (fun _ _ h => genCandidate_inj _ h)
    have hlen := nodup_subset_length hnd hsub
    simp at hlen

/-- One addProject call without an explicit id preserves distinctness of
the catalog ids. -/
theorem addProject_generated_nodup (st : ProjectsState) (input : ProjectInput) (now : Int)
    (hid : input.id = none) (hnd : (st.projects.map Project.id).Nodup) :
    ((addProject st input now).2.projects.map Project.id).Nodup := by
  cases hb : (strFalsy input.name || strFalsy input.github) with
  | true => simpa [addProject, hb] using hnd
  | false =>
    simp only [addProject, hb, Bool.false_eq_true, if_false, hid]
    simp only [strFalsy, if_true]
    simp only [List.map_cons, List.nodup_cons]
    exact ⟨generateId_not_mem _ _, hnd⟩

/-- A whole sequence of addProject calls without explicit ids preserves
distinctness of the catalog ids. -/
theorem addProjects_nodup (inputs : List ProjectInput) :
    ∀ (st : ProjectsState) (now : Int),
      (∀ i ∈ inputs, i.id = none) →
      (st.projects.map Project.id).Nodup →
      ((addProjects st inputs now).projects.map Project.id).Nodup := by
  induction inputs with
  | nil => intro st now _ h; exact h
  | cons i rest ih =>
    intro st now hids hnd
    have hstep : addProjects st (i :: rest) now = addProjects (addProject st i now).2 rest now :=
      rfl
    rw [hstep]
    exact ih _ now (fun j hj => hids j (List.mem_cons_of_mem _ hj))
      (addProject_generated_nodup st i now (hids i (List.mem_cons_self _ _)) hnd)

/-- C3 counterexample: addProject performs no uniqueness check on an
explicitly supplied id.  On the seed catalog, whose ids are pairwise
distinct, one valid addProject call whose input carries the explicit id
gominage succeeds and leaves two projects with the same id, so uniqueness
does not survive arbitrary sequences of addProject calls. -/
theorem addProject_explicit_id_collision :
    ((loadFallbackData initialProjectsState).projects.map Project.id).Nodup ∧
    ((addProject (loadFallbackData initialProjectsState) dupIdInput 0).2.projects.map Project.id =
      ["gominage", "gominage"]) ∧
    ¬ ((addProject (loadFallbackData initialProjectsState) dupIdInput 0).2.projects.map
        Project.id).Nodup := by
  refine ⟨by decide, by decide, by decide⟩

/-- C3 amended: id uniqueness is enforced at insertion time for generated
ids: the id generated for any name avoids every existing id (collisions
being resolved by the incrementing numeric suffix), any sequence of
addProject calls that supply no explicit id keeps the catalog ids pairwise
distinct, and adding two projects named My Project! in sequence without
explicit ids yields the ids my-project and my-project-1 (the catalog being
most-recent-first). -/
theorem generated_ids_unique :
    (∀ (ps : List Project) (name : String), generateId ps name ∉ ps.map Project.id) ∧
    (∀ (st : ProjectsState) (inputs : List ProjectInput) (now : Int),
      (∀ i ∈ inputs, i.id = none) →
      (st.projects.map Project.id).Nodup →
      ((addProjects st inputs now).projects.map Project.id).Nodup) ∧
    (addProjects initialProjectsState [myProjectInput, myProjectInput] 0).projects.map Project.id =
      ["my-project-1", "my-project"] := by
  refine ⟨generateId_not_mem, ?_, by decide⟩
  intro st inputs now h1 h2
  exact addProjects_nodup inputs st now h1 h2

/-- Witness for generated_ids_unique on a concrete one-call sequence. -/
theorem generated_ids_unique_witness :
    ((addProjects initialProjectsState [myProjectInput] 0).projects.map Project.id).Nodup :=
  generated_ids_unique.2.1 initialProjectsState [myProjectInput] 0
    (by intro i hi; simp only [List.mem_singleton] at hi; subst hi; rfl) (by decide)

/-- Witness for theme_export_import_roundtrip on the constructor state. -/
theorem theme_export_import_roundtrip_witness :
    exportTheme (applyTheme initialThemeState "dark") 7 =
      some { name := "dark", colors := darkTheme.colors, timestamp := 7 } :=
  (theme_export_import_roundtrip initialThemeState 7 (by decide)).1

end Portfolio
